import Mathlib

/-!
Shallow embedding of `assistant.py` (an AI personal-assistant demo that routes
menu choices to LLM agent calls and Google Calendar operations), together with
proofs about the behaviour of its handlers `create_reminder`,
`generate_meeting_brief`, `schedule_meeting`, the authentication helper
`get_calendar_service`, and the menu loop `run_demo`.

External effects (the OpenAI agent runner, the Google Calendar REST calls,
`input()` lines) are modelled as explicit inputs carried in environment
records, and the calls a handler performs (conflict queries, event inserts,
confirmation prompts) are collected in an explicit effect log.  A Python
call that may raise is modelled with `PyResult`.
-/

namespace Assistant

/-- Result of a Python expression that may raise: either a value or an
exception carrying its message (`str(e)`). -/
inductive PyResult (α : Type) where
  | ok (a : α)
  | raised (msg : String)
deriving DecidableEq, Repr

/-- Whether the first character list is a prefix of the second. -/
def charsPrefOf : List Char → List Char → Bool
  | [], _ => true
  | _ :: _, [] => false
  | a :: as, b :: bs => a = b && charsPrefOf as bs

/-- Whether the first character list occurs contiguously in the second. -/
def charsSubOf (pat : List Char) : List Char → Bool
  | [] => charsPrefOf pat []
  | b :: bs => charsPrefOf pat (b :: bs) || charsSubOf pat bs

/-- Python `pat in s` substring test on strings. -/
def pyIn (pat s : String) : Bool :=
  charsSubOf pat.toList s.toList

/-- Python whitespace characters, the set `str.strip` removes
(space, tab, newline, carriage return, vertical tab, form feed). -/
def pyIsSpace (c : Char) : Bool :=
  c = ' ' || c = '\t' || c = '\n' || c = '\r' || c = Char.ofNat 11 || c = Char.ofNat 12

/-- Python `s.strip()`: drop leading and trailing whitespace. -/
def pyStrip (s : String) : String :=
  String.mk (((s.toList.dropWhile pyIsSpace).reverse.dropWhile pyIsSpace).reverse)

/-- Split a character list at every occurrence of a separator character,
keeping empty pieces, as Python `str.split` with a one-character separator
does. -/
def splitChars (sep : Char) : List Char → List (List Char)
  | [] => [[]]
  | c :: cs =>
    if c = sep then [] :: splitChars sep cs
    else
      match splitChars sep cs with
      | h :: t => (c :: h) :: t
      | [] => [[c]]

/-- Python `s.split(sep)` for a one-character separator. -/
def pySplit (s : String) (sep : Char) : List String :=
  (splitChars sep s.toList).map String.mk

/-- Base-10 digits to a number; `none` when empty or a non-digit appears. -/
def digitsToNat (l : List Char) : Option Nat :=
  if l = [] then none
  else if l.all Char.isDigit then
    some (l.foldl (fun a c => a * 10 + (c.toNat - 48)) 0)
  else none

/-- Python `int(s)` (base 10): strips whitespace, allows one optional sign,
then requires at least one digit.  `none` models the `ValueError`. -/
def pyInt (s : String) : Option Int :=
  match (pyStrip s).toList with
  | '+' :: ds => (digitsToNat ds).map (fun n => (n : Int))
  | '-' :: ds => (digitsToNat ds).map (fun n => -(n : Int))
  | ds => (digitsToNat ds).map (fun n => (n : Int))

/-- A calendar date (`datetime.date`). -/
structure Date where
  year : Nat
  month : Nat
  day : Nat
deriving DecidableEq, Repr

/-- Gregorian leap year. -/
def isLeap (y : Nat) : Bool :=
  y % 4 = 0 && (y % 100 != 0 || y % 400 = 0)

/-- Number of days in a month. -/
def daysInMonth (y m : Nat) : Nat :=
  if m = 2 then (if isLeap y then 29 else 28)
  else if m = 4 || m = 6 || m = 9 || m = 11 then 30
  else 31

/-- Days since 0000-03-01 (proleptic Gregorian), valid for dates from
year 1 on; the standard civil-from-days correspondence. -/
def daysFromCivil (dt : Date) : Nat :=
  let y := if dt.month ≤ 2 then dt.year - 1 else dt.year
  let era := y / 400
  let yoe := y - era * 400
  let mp := (dt.month + 9) % 12
  let doy := (153 * mp + 2) / 5 + (dt.day - 1)
  let doe := yoe * 365 + yoe / 4 - yoe / 100 + doy
  era * 146097 + doe

/-- Inverse of `daysFromCivil`. -/
def civilFromDays (z : Nat) : Date :=
  let era := z / 146097
  let doe := z % 146097
  let yoe := (doe - doe / 1460 + doe / 36524 - doe / 146096) / 365
  let y := yoe + era * 400
  let doy := doe - (365 * yoe + yoe / 4 - yoe / 100)
  let mp := (5 * doy + 2) / 153
  let d := doy - (153 * mp + 2) / 5 + 1
  let m := if mp < 10 then mp + 3 else mp - 9
  if m ≤ 2 then ⟨y + 1, m, d⟩ else ⟨y, m, d⟩

/-- `date + timedelta(days = n)`. -/
def Date.addDays (d : Date) (n : Nat) : Date :=
  civilFromDays (daysFromCivil d + n)

/-- Two-digit zero-padded decimal. -/
def pad2 (n : Nat) : String :=
  if n < 10 then "0" ++ toString n else toString n

/-- Four-digit zero-padded decimal. -/
def pad4 (n : Nat) : String :=
  if n < 10 then "000" ++ toString n
  else if n < 100 then "00" ++ toString n
  else if n < 1000 then "0" ++ toString n
  else toString n

/-- `date.isoformat()`, equal to `date.strftime(\x27%Y-%m-%d\x27)`. -/
def Date.iso (d : Date) : String :=
  pad4 d.year ++ "-" ++ pad2 d.month ++ "-" ++ pad2 d.day

/-- Day of week with 0 = Sunday (0000-03-01 was a Wednesday and
146097 is a multiple of 7). -/
def dowSunday0 (d : Date) : Nat :=
  (daysFromCivil d + 3) % 7

/-- Day of month of the second Sunday in March (US DST start). -/
def secondSundayMarch (y : Nat) : Nat :=
  8 + ((7 - dowSunday0 ⟨y, 3, 1⟩) % 7)

/-- Day of month of the first Sunday in November (US DST end). -/
def firstSundayNov (y : Nat) : Nat :=
  1 + ((7 - dowSunday0 ⟨y, 11, 1⟩) % 7)

/-- A naive `datetime` (no timezone); microseconds are always zero here. -/
structure NaiveDT where
  date : Date
  hour : Nat
  minute : Nat
  second : Nat
deriving DecidableEq, Repr

/-- Whether US Eastern daylight saving time is in effect at a naive local
time, under the post-2007 US rule (second Sunday of March 02:00 to first
Sunday of November 02:00), resolving ambiguous and nonexistent local times
to standard time the way pytz `localize` does by default.  The program only
evaluates this at 09:00 local time, where the rule is unambiguous. -/
def usEasternIsDST (dt : NaiveDT) : Bool :=
  let z := daysFromCivil dt.date
  let s := daysFromCivil ⟨dt.date.year, 3, secondSundayMarch dt.date.year⟩
  let e := daysFromCivil ⟨dt.date.year, 11, firstSundayNov dt.date.year⟩
  if z < s then false
  else if z = s then 3 ≤ dt.hour
  else if z < e then true
  else if z = e then dt.hour < 1
  else false

/-- UTC offset in minutes of `America/New_York` at a naive local time. -/
def usEasternOffset (dt : NaiveDT) : Int :=
  if usEasternIsDST dt then -240 else -300

/-- An aware `datetime` as produced by pytz `localize`: the naive local
time, the timezone name, and the fixed UTC offset that `localize` chose. -/
structure AwareDT where
  naive : NaiveDT
  tzName : String
  utcOffsetMinutes : Int
deriving DecidableEq, Repr

/-- `pytz.timezone(\x27America/New_York\x27).localize(dt)`. -/
def localizeEastern (dt : NaiveDT) : AwareDT :=
  ⟨dt, "America/New_York", usEasternOffset dt⟩

/-- Total minutes since 0000-03-01 00:00 of a naive datetime. -/
def NaiveDT.toMinutes (dt : NaiveDT) : Nat :=
  daysFromCivil dt.date * 1440 + dt.hour * 60 + dt.minute

/-- Naive datetime from total minutes since 0000-03-01 00:00. -/
def minutesToNaive (t : Nat) : NaiveDT :=
  ⟨civilFromDays (t / 1440), t % 1440 / 60, t % 60, 0⟩

/-- Smallest representable minute of Python datetimes (0001-01-01 00:00). -/
def minMinute : Nat := daysFromCivil ⟨1, 1, 1⟩ * 1440

/-- One past the largest representable minute (9999-12-31 23:59). -/
def maxMinuteExcl : Nat := (daysFromCivil ⟨9999, 12, 31⟩ + 1) * 1440

/-- `dt + timedelta(minutes = m)` on a pytz-aware datetime: wall-clock
arithmetic keeping the timezone object (hence the UTC offset) fixed, raising
`OverflowError` when the result leaves the Python datetime year range. -/
def AwareDT.addMinutes (dt : AwareDT) (m : Int) : PyResult AwareDT :=
  let t : Int := (dt.naive.toMinutes : Int) + m
  if minMinute ≤ t ∧ t < (maxMinuteExcl : Int) then
    .ok ⟨minutesToNaive t.toNat, dt.tzName, dt.utcOffsetMinutes⟩
  else .raised "date value out of range"

/-- The credential object loaded from `token.json` or produced by the OAuth
flow, reduced to the three flags `get_calendar_service` inspects. -/
structure Creds where
  valid : Bool
  expired : Bool
  hasRefreshToken : Bool
deriving DecidableEq, Repr

/-- The authenticated session handle `build(\x27calendar\x27, \x27v3\x27, ...)`. -/
inductive ServiceHandle where
  | service
deriving DecidableEq, Repr

/-- What `get_calendar_service` returns when it returns: a session handle or
an error string (the callers distinguish them with `isinstance(service, str)`). -/
inductive AuthReturn where
  | errMsg (s : String)
  | ok (h : ServiceHandle)
deriving DecidableEq, Repr

/-- Environment of one `get_calendar_service` call: whether `token.json`
exists, and the outcomes of the three external actions — loading the token
file (`Credentials.from_authorized_user_file`, which raises on a malformed
file), `creds.refresh(Request())`, and the `InstalledAppFlow` consent
flow.  `loadResult` is consulted only when the file exists. -/
structure AuthEnv where
  tokenFileExists : Bool
  loadResult : PyResult Creds
  refreshResult : PyResult Unit
  flowResult : PyResult Creds
deriving DecidableEq, Repr

/-- Embedding of `get_calendar_service`.  Mirrors the source: load `creds`
from the token file if present — a call made outside any try/except, so a
raising load propagates; when credentials are absent or invalid, either
refresh (credentials present, expired, with a refresh token) — likewise
outside any try/except, so a raising refresh propagates — or run the
consent flow, whose exceptions are caught and turned into an error string.
The final `if not creds` guard of the source is unreachable here because a
successful flow always yields a credential object. -/
def get_calendar_service (env : AuthEnv) : PyResult AuthReturn :=
  if env.tokenFileExists then
    match env.loadResult with
    | .raised e => .raised e
    | .ok c =>
      if c.valid then .ok (.ok .service)
      else if c.expired && c.hasRefreshToken then
        match env.refreshResult with
        | .raised e => .raised e
        | .ok _ => .ok (.ok .service)
      else
        match env.flowResult with
        | .raised e =>
          .ok (.errMsg ("Error authorizing Google Calendar: " ++ e ++
            ". Pre-authenticate by running option 3 once and approving the OAuth prompt."))
        | .ok _ => .ok (.ok .service)
  else
    match env.flowResult with
    | .raised e =>
      .ok (.errMsg ("Error authorizing Google Calendar: " ++ e ++
        ". Pre-authenticate by running option 3 once and approving the OAuth prompt."))
    | .ok _ => .ok (.ok .service)

/-- The handoff sentinel the TaskAgent may emit. -/
def sentinel : String := "Handoff to SchedulingAgent"

/-- An all-day calendar event body as built by `create_reminder`. -/
structure AllDayEvent where
  summary : String
  startDate : String
  endDate : String
  description : String
deriving DecidableEq, Repr

/-- Environment of one `create_reminder` call: the task description, the
TaskAgent run outcome (`result.final_output`), the `get_calendar_service`
outcome, the current date, and the insert call outcome. -/
structure ReminderEnv where
  task_description : String
  agentResult : PyResult String
  authOutcome : PyResult AuthReturn
  today : Date
  insertResult : PyResult Unit
deriving DecidableEq, Repr

/-- The all-day event body `create_reminder` builds. -/
def reminderEvent (env : ReminderEnv) (finalOutput : String) : AllDayEvent :=
  { summary := env.task_description
  , startDate := env.today.iso
  , endDate := (env.today.addDays 1).iso
  , description := finalOutput }

/-- Embedding of `create_reminder`: returns the user-facing string and the
list of insert calls attempted.  The whole body runs inside one
try/except, so every raise becomes an error-prefixed string. -/
def create_reminder (env : ReminderEnv) : String × List AllDayEvent :=
  match env.agentResult with
  | .raised e => ("Error creating reminder: " ++ e, [])
  | .ok out =>
    if pyIn sentinel out then
      ("Reminder creation requires scheduling, but this function is for reminders only.", [])
    else
      match env.authOutcome with
      | .raised e => ("Error creating reminder: " ++ e, [])
      | .ok (.errMsg s) =>
        ("AI reminder created, but calendar integration failed: " ++ s, [])
      | .ok (.ok _) =>
        let ev := reminderEvent env out
        match env.insertResult with
        | .raised e => ("Error creating reminder: " ++ e, [ev])
        | .ok _ =>
          (out ++ "\nReminder also added to Google Calendar on " ++ env.today.iso ++ ".",
            [ev])

/-- Embedding of `generate_meeting_brief`, as a function of the TaskAgent
run outcome. -/
def generate_meeting_brief (agentResult : PyResult String) : String :=
  match agentResult with
  | .raised e => "Error generating brief: " ++ e
  | .ok out =>
    if pyIn sentinel out then "Meeting brief generation does not require scheduling."
    else out

/-- A timed event boundary: the aware datetime and the timezone field of the
event body. -/
structure TimedStamp where
  dateTime : AwareDT
  timeZone : String
deriving DecidableEq, Repr

/-- A timed calendar event body as built by `schedule_meeting`; `attendees`
holds the email strings of the attendee records. -/
structure TimedEvent where
  summary : String
  start : TimedStamp
  stop : TimedStamp
  attendees : List String
deriving DecidableEq, Repr

/-- The external calls `schedule_meeting` performed: conflict-window queries
(`events().list`, as start and end bounds), event inserts, and prompts sent
to the SchedulingAgent. -/
structure Effects where
  listCalls : List (AwareDT × AwareDT)
  insertCalls : List TimedEvent
  agentPrompts : List String
deriving DecidableEq, Repr

/-- The empty effect log. -/
def Effects.nil : Effects := ⟨[], [], []⟩

/-- Environment of one `schedule_meeting` call: its three arguments, the
`get_calendar_service` outcome, the outcome of the conflict query (the
summaries of the events found), the attendee line read from stdin, and the
outcomes of the insert call and the SchedulingAgent confirmation run. -/
structure ScheduleEnv where
  meeting_title : String
  duration_minutes : Int
  date_str : String
  authOutcome : PyResult AuthReturn
  listResult : PyResult (List String)
  attendeesInput : String
  insertResult : PyResult Unit
  confirmResult : PyResult String
deriving DecidableEq, Repr

/-- The trimmed comma-separated attendee entries (`attendee_emails` in the
source); the empty list when the input line is blank, in which case the
source never builds the list at all. -/
def attendeeEntries (input : String) : List String :=
  if pyStrip input ≠ "" then (pySplit input ',').map pyStrip else []

/-- The filter of the attendee comprehension: Python keeps an entry when it
is truthy (non-empty) and contains an at sign. -/
def attendeeKeep (e : String) : Bool :=
  e != "" && pyIn "@" e

/-- The attendee emails attached to the event (`attendees` in the source). -/
def attendeeFiltered (input : String) : List String :=
  (attendeeEntries input).filter attendeeKeep

/-- Python `", ".join(l)`. -/
def joinComma : List String → String
  | [] => ""
  | [e] => e
  | e :: es => e ++ ", " ++ joinComma es

/-- The attendee fragment of the confirmation prompt:
`", ".join(attendee_emails) if attendees else "none"` — all parsed entries
when the filtered list is non-empty, the word "none" otherwise. -/
def attendeesPart (input : String) : String :=
  if attendeeFiltered input ≠ [] then joinComma (attendeeEntries input) else "none"

/-- The confirmation prompt sent to the SchedulingAgent. -/
def confirmPrompt (title date_str : String) (dur : Int) (input : String) : String :=
  "Confirm a meeting titled '" ++ title ++ "' scheduled on " ++ date_str ++
    " at 9:00 AM EST for " ++ toString dur ++ " minutes with attendees " ++
    attendeesPart input ++ "."

/-- The `ValueError` message of a failing `strptime`. -/
def strptimeError (s : String) : String :=
  "time data '" ++ s ++ "' does not match format '%Y-%m-%d'"

/-- `datetime.strptime(s, \x27%Y-%m-%d\x27)` reduced to its date: three
dash-separated decimal components forming a valid calendar date in the
Python year range. -/
def parseDate (s : String) : Option Date :=
  match pySplit s '-' with
  | [ys, ms, ds] =>
    match digitsToNat ys.toList, digitsToNat ms.toList, digitsToNat ds.toList with
    | some y, some m, some d =>
      if 1 ≤ y ∧ y ≤ 9999 ∧ 1 ≤ m ∧ m ≤ 12 ∧ 1 ≤ d ∧ d ≤ daysInMonth y m then
        some ⟨y, m, d⟩
      else none
    | _, _, _ => none
  | _ => none

/-- The fixed busy message. -/
def busyMsg : String := "Time slot is busy. Please choose another date."

/-- Embedding of `schedule_meeting`: the returned value (a raise only when
`get_calendar_service` itself raises, since that call stands outside the
try/except) together with the effect log.  Mirrors the source order:
authenticate, parse the date, fix 09:00 Eastern, add the duration, query
conflicts, return busy on any hit, filter attendees, insert, confirm. -/
def schedule_meeting (env : ScheduleEnv) : PyResult String × Effects :=
  match env.authOutcome with
  | .raised e => (.raised e, Effects.nil)
  | .ok (.errMsg s) => (.ok s, Effects.nil)
  | .ok (.ok _) =>
    match parseDate env.date_str with
    | none => (.ok ("Error scheduling meeting: " ++ strptimeError env.date_str), Effects.nil)
    | some d =>
      let start_time := localizeEastern ⟨d, 9, 0, 0⟩
      match start_time.addMinutes env.duration_minutes with
      | .raised e => (.ok ("Error scheduling meeting: " ++ e), Effects.nil)
      | .ok end_time =>
        let fx1 : Effects := ⟨[(start_time, end_time)], [], []⟩
        match env.listResult with
        | .raised e => (.ok ("Error scheduling meeting: " ++ e), fx1)
        | .ok events =>
          if events ≠ [] then (.ok busyMsg, fx1)
          else
            let attendees := attendeeFiltered env.attendeesInput
            let ev : TimedEvent :=
              { summary := env.meeting_title
              , start := ⟨start_time, "America/New_York"⟩
              , stop := ⟨end_time, "America/New_York"⟩
              , attendees := attendees }
            let fx2 : Effects := ⟨fx1.listCalls, [ev], []⟩
            match env.insertResult with
            | .raised e => (.ok ("Error scheduling meeting: " ++ e), fx2)
            | .ok _ =>
              let prompt := confirmPrompt env.meeting_title env.date_str
                env.duration_minutes env.attendeesInput
              let fx3 : Effects := ⟨fx2.listCalls, fx2.insertCalls, [prompt]⟩
              match env.confirmResult with
              | .raised e => (.ok ("Error scheduling meeting: " ++ e), fx3)
              | .ok txt => (.ok txt, fx3)

/-- The three handlers as the menu loop sees them, abstracted over their
environments (the loop passes the free-text inputs through). -/
structure Handlers where
  remind : String → String
  brief : String → String
  sched : String → Int → String → String

/-- How a run of the demo ends: a normal exit through option 4, an uncaught
exception (abnormal termination), or exhaustion of the modelled stdin. -/
inductive DemoResult where
  | exited (output : List String)
  | crashed (output : List String) (msg : String)
  | outOfInput (output : List String)
deriving DecidableEq, Repr

/-- The five banner lines `run_demo` prints once, before the loop. -/
def menuLines : List String :=
  [ "=== AI-Powered Life Assistant Demo ==="
  , "1. Set a reminder"
  , "2. Generate a meeting brief"
  , "3. Schedule a meeting"
  , "4. Exit" ]

/-- The `ValueError` message of `int()` on a bad literal. -/
def intError (s : String) : String :=
  "invalid literal for int() with base 10: '" ++ s ++ "'"

/-- Where the loop stands between two `input()` calls: about to read the
menu choice, or about to read one of the free-text parameters of the chosen
option (option 3 reads title, then duration, then date). -/
inductive LoopState where
  | menu
  | readTask
  | readNotes
  | readTitle
  | readDuration (title : String)
  | readDate (title : String) (dur : Int)
deriving DecidableEq, Repr

/-- The while loop of `run_demo`, consuming one stdin line per step and
accumulating the lines printed so far.  Only `print` output is modelled
(not the prompt texts passed to `input`).  The `elif` chain on the choice is
kept; `int()` on a bad duration line is uncaught, so it ends the whole run
as `crashed`. -/
def runLoop (H : Handlers) : LoopState → List String → List String → DemoResult
  | _, [], out => .outOfInput out
  | .menu, choice :: rest, out =>
    if choice = "1" then runLoop H .readTask rest out
    else if choice = "2" then runLoop H .readNotes rest out
    else if choice = "3" then runLoop H .readTitle rest out
    else if choice = "4" then .exited (out ++ ["Demo ended. Thank you!"])
    else runLoop H .menu rest (out ++ ["Invalid choice. Please try again."])
  | .readTask, task :: rest, out =>
    runLoop H .menu rest (out ++ ["\nResult:", H.remind task])
  | .readNotes, notes :: rest, out =>
    runLoop H .menu rest (out ++ ["\nResult:", H.brief notes])
  | .readTitle, title :: rest, out =>
    runLoop H (.readDuration title) rest out
  | .readDuration title, durLine :: rest, out =>
    match pyInt durLine with
    | none => .crashed out (intError durLine)
    | some dur => runLoop H (.readDate title dur) rest out
  | .readDate title dur, dateLine :: rest, out =>
    runLoop H .menu rest (out ++ ["\nResult:", H.sched title dur dateLine])

/-- Embedding of `run_demo`: print the banner, then loop on stdin. -/
def run_demo (H : Handlers) (stdin : List String) : DemoResult :=
  runLoop H .menu stdin menuLines

/-! Concrete environments used in counterexamples and witnesses. -/

/-- A reminder run where the agent answered without the sentinel but
authentication came back as an error string. -/
def c1Env : ReminderEnv :=
  { task_description := "Call the client"
  , agentResult := .ok "Reminder set: call the client at noon."
  , authOutcome := .ok (.errMsg "Error authorizing Google Calendar: connection refused. Pre-authenticate by running option 3 once and approving the OAuth prompt.")
  , today := ⟨2025, 3, 10⟩
  , insertResult := .ok () }

/-- An authentication environment with a cached, expired token carrying a
refresh token whose silent refresh raises. -/
def c3AuthEnv : AuthEnv :=
  { tokenFileExists := true
  , loadResult := .ok { valid := false, expired := true, hasRefreshToken := true }
  , refreshResult := .raised "invalid_grant: Token has been expired or revoked."
  , flowResult := .ok { valid := true, expired := false, hasRefreshToken := true } }

/-- An authentication environment whose cached token file is malformed, so
loading it raises. -/
def c3LoadEnv : AuthEnv :=
  { tokenFileExists := true
  , loadResult := .raised "Expecting value: line 1 column 1 (char 0)"
  , refreshResult := .ok ()
  , flowResult := .ok { valid := true, expired := false, hasRefreshToken := false } }

/-- A schedule run whose authentication yields an error string. -/
def schedEnvAuthErr : ScheduleEnv :=
  { meeting_title := "Sync"
  , duration_minutes := 30
  , date_str := "2025-03-10"
  , authOutcome := .ok (.errMsg "Google Calendar authentication failed. Please ensure credentials.json is valid and pre-authenticate.")
  , listResult := .ok []
  , attendeesInput := ""
  , insertResult := .ok ()
  , confirmResult := .ok "Meeting confirmed." }

/-- A schedule run whose conflict query finds an existing event. -/
def schedEnvBusy : ScheduleEnv :=
  { meeting_title := "Sync"
  , duration_minutes := 30
  , date_str := "2025-03-10"
  , authOutcome := .ok (.ok .service)
  , listResult := .ok ["Existing meeting"]
  , attendeesInput := ""
  , insertResult := .ok ()
  , confirmResult := .ok "Meeting confirmed." }

/-- The conflict-free end-to-end schedule run of the spec's scenario:
duration 30, date 2025-03-10, title Sync, no attendees. -/
def schedEnvOk : ScheduleEnv :=
  { meeting_title := "Sync"
  , duration_minutes := 30
  , date_str := "2025-03-10"
  , authOutcome := .ok (.ok .service)
  , listResult := .ok []
  , attendeesInput := ""
  , insertResult := .ok ()
  , confirmResult := .ok "Meeting confirmed." }

/-- The conflict-free schedule run with the mixed attendee input of the
spec's attendee-filtering scenario. -/
def schedEnvAtt : ScheduleEnv :=
  { schedEnvOk with attendeesInput := "a@x.com, bad, b@y.com" }

/-- Trivial handlers for closed runs of the menu loop. -/
def H0 : Handlers :=
  ⟨fun _ => "reminder done", fun _ => "brief done", fun _ _ _ => "scheduled"⟩

/-! Theorems settling the claims. -/

/-- C1 counterexample: a reminder run in which the TaskAgent output lacks the
handoff sentinel and the calendar step fails (authentication returned an
error string), yet the string `create_reminder` returns does not contain the
agent's original output text — refuting the claim that it still does. -/
theorem c1_counterexample_output_discarded :
    c1Env.agentResult = PyResult.ok "Reminder set: call the client at noon."
    ∧ pyIn sentinel "Reminder set: call the client at noon." = false
    ∧ pyIn "Reminder set: call the client at noon." (create_reminder c1Env).1 = false := by
  decide

/-- C1 amended: for a reminder request whose TaskAgent output lacks the
handoff sentinel, a calendar failure still yields a returned string rather
than an exception — the partial-success message
"AI reminder created, but calendar integration failed: " plus the
authentication error when authentication returned an error string, and
"Error creating reminder: " plus the exception text when the event insertion
raised — but that string does not retain the agent's original output text. -/
theorem c1_amended_partial_success (env : ReminderEnv) (out : String)
    (hok : env.agentResult = PyResult.ok out)
    (hns : pyIn sentinel out = false) :
    (∀ s, env.authOutcome = PyResult.ok (AuthReturn.errMsg s) →
      (create_reminder env).1 = "AI reminder created, but calendar integration failed: " ++ s)
    ∧ (∀ e, env.authOutcome = PyResult.ok (AuthReturn.ok ServiceHandle.service) →
        env.insertResult = PyResult.raised e →
      (create_reminder env).1 = "Error creating reminder: " ++ e) := by
  constructor
  · intro s hs
    simp [create_reminder, hok, hns, hs]
  · intro e ha he
    simp [create_reminder, hok, hns, ha, he]

/-- C1 witness: the amended claim evaluated on the concrete failing-auth
reminder run. -/
theorem c1_amended_partial_success_witness :
    (create_reminder c1Env).1
      = "AI reminder created, but calendar integration failed: " ++
        "Error authorizing Google Calendar: connection refused. Pre-authenticate by running option 3 once and approving the OAuth prompt." :=
  (c1_amended_partial_success c1Env "Reminder set: call the client at noon."
    rfl (by decide)).1 _ rfl

/-- C2: when the conflict query over the requested window returns at least
one event, `schedule_meeting` returns exactly the string
"Time slot is busy. Please choose another date." and performs no insert
call (and sends no confirmation prompt). -/
theorem c2_busy_slot_no_insert (env : ScheduleEnv) (d : Date) (et : AwareDT)
    (evs : List String)
    (hauth : env.authOutcome = PyResult.ok (AuthReturn.ok ServiceHandle.service))
    (hdate : parseDate env.date_str = some d)
    (hadd : (localizeEastern ⟨d, 9, 0, 0⟩).addMinutes env.duration_minutes = PyResult.ok et)
    (hlist : env.listResult = PyResult.ok evs)
    (hne : evs ≠ []) :
    (schedule_meeting env).1 = PyResult.ok "Time slot is busy. Please choose another date."
    ∧ (schedule_meeting env).2.insertCalls = []
    ∧ (schedule_meeting env).2.agentPrompts = [] := by
  refine ⟨?_, ?_, ?_⟩ <;>
    simp [schedule_meeting, hauth, hdate, hadd, hlist, hne, busyMsg]

/-- C2 witness: a concrete busy schedule run. -/
theorem c2_busy_slot_no_insert_witness :
    (schedule_meeting schedEnvBusy).1
        = PyResult.ok "Time slot is busy. Please choose another date."
    ∧ (schedule_meeting schedEnvBusy).2.insertCalls = []
    ∧ (schedule_meeting schedEnvBusy).2.agentPrompts = [] :=
  c2_busy_slot_no_insert schedEnvBusy ⟨2025, 3, 10⟩
    ⟨⟨⟨2025, 3, 10⟩, 9, 30, 0⟩, "America/New_York", -240⟩
    ["Existing meeting"] rfl (by decide) (by decide) rfl (by decide)

/-- C3 counterexample: with a cached token that is present but expired and a
silent refresh that fails, `get_calendar_service` raises the refresh
exception to its caller instead of returning an error string — refuting the
claim that it never raises. -/
theorem c3_counterexample_refresh_raises :
    get_calendar_service c3AuthEnv
      = PyResult.raised "invalid_grant: Token has been expired or revoked." := by
  decide

/-- C3 amended: `get_calendar_service` can raise — the token-file load and
the silent refresh both stand outside any try/except, so a cached token
that is present but expired with a refresh token whose refresh fails
propagates the exception to the caller, and so does a malformed token file
whose load fails; consent-flow failures, by contrast, are caught and
returned as a descriptive error string, not raised. -/
theorem c3_amended_unguarded_raises (env : AuthEnv) (c : Creds) (m : String) :
    (env.tokenFileExists = true → env.loadResult = PyResult.ok c →
      c.valid = false → c.expired = true → c.hasRefreshToken = true →
      env.refreshResult = PyResult.raised m →
      get_calendar_service env = PyResult.raised m)
    ∧ (env.tokenFileExists = true → env.loadResult = PyResult.raised m →
      get_calendar_service env = PyResult.raised m)
    ∧ (env.tokenFileExists = false → env.flowResult = PyResult.raised m →
      get_calendar_service env = PyResult.ok (AuthReturn.errMsg
        ("Error authorizing Google Calendar: " ++ m ++
          ". Pre-authenticate by running option 3 once and approving the OAuth prompt.")))
    ∧ (env.tokenFileExists = true → env.loadResult = PyResult.ok c →
      c.valid = false → c.expired = false → env.flowResult = PyResult.raised m →
      get_calendar_service env = PyResult.ok (AuthReturn.errMsg
        ("Error authorizing Google Calendar: " ++ m ++
          ". Pre-authenticate by running option 3 once and approving the OAuth prompt."))) := by
  refine ⟨?_, ?_, ?_, ?_⟩
  · intro htf hload hv hex hrt hrr
    simp [get_calendar_service, htf, hload, hv, hex, hrt, hrr]
  · intro htf hload
    simp [get_calendar_service, htf, hload]
  · intro htf hflow
    simp [get_calendar_service, htf, hflow]
  · intro htf hload hv hex hflow
    simp [get_calendar_service, htf, hload, hv, hex, hflow]

/-- C3 witness: the amended claim evaluated on the two concrete raising
environments — the failing silent refresh and the malformed token file. -/
theorem c3_amended_unguarded_raises_witness :
    get_calendar_service c3AuthEnv
        = PyResult.raised "invalid_grant: Token has been expired or revoked."
    ∧ get_calendar_service c3LoadEnv
        = PyResult.raised "Expecting value: line 1 column 1 (char 0)" :=
  ⟨(c3_amended_unguarded_raises c3AuthEnv
      ⟨false, true, true⟩ "invalid_grant: Token has been expired or revoked.").1
      rfl rfl rfl rfl rfl rfl,
    (c3_amended_unguarded_raises c3LoadEnv
      ⟨false, true, true⟩ "Expecting value: line 1 column 1 (char 0)").2.1
      rfl rfl⟩

/-- C4: with a well-formed date string, successful authentication, an
in-range end time, no conflicts and a successful insert, the single inserted
event is a timed event starting at 09:00 America/New_York on the parsed date
whose end is that start plus `duration_minutes` minutes. -/
theorem c4_inserted_event_times (env : ScheduleEnv) (d : Date) (et : AwareDT)
    (hauth : env.authOutcome = PyResult.ok (AuthReturn.ok ServiceHandle.service))
    (hdate : parseDate env.date_str = some d)
    (hadd : (localizeEastern ⟨d, 9, 0, 0⟩).addMinutes env.duration_minutes = PyResult.ok et)
    (hlist : env.listResult = PyResult.ok [])
    (hins : env.insertResult = PyResult.ok ()) :
    (schedule_meeting env).2.insertCalls =
      [{ summary := env.meeting_title
        , start := ⟨localizeEastern ⟨d, 9, 0, 0⟩, "America/New_York"⟩
        , stop := ⟨et, "America/New_York"⟩
        , attendees := attendeeFiltered env.attendeesInput }] := by
  cases hc : env.confirmResult <;>
    simp [schedule_meeting, hauth, hdate, hadd, hlist, hins, hc]

/-- C4 witness: the spec's end-to-end scenario — duration 30 on 2025-03-10
yields a timed event 09:00 to 09:30 America/New_York (offset -04:00, since
US daylight saving began 2025-03-09) on 2025-03-10. -/
theorem c4_inserted_event_times_witness :
    (schedule_meeting schedEnvOk).2.insertCalls =
      [{ summary := "Sync"
        , start := ⟨⟨⟨⟨2025, 3, 10⟩, 9, 0, 0⟩, "America/New_York", -240⟩, "America/New_York"⟩
        , stop := ⟨⟨⟨⟨2025, 3, 10⟩, 9, 30, 0⟩, "America/New_York", -240⟩, "America/New_York"⟩
        , attendees := [] }] := by
  have h := c4_inserted_event_times schedEnvOk ⟨2025, 3, 10⟩
    ⟨⟨⟨2025, 3, 10⟩, 9, 30, 0⟩, "America/New_York", -240⟩
    rfl (by decide) (by decide) rfl rfl
  rw [h]
  decide

/-- C5: when the TaskAgent output contains the handoff sentinel,
`generate_meeting_brief` returns exactly the fixed rejection message — which
does not contain the sentinel, so the raw sentinel-bearing output is never
returned — and otherwise it returns the agent text verbatim. -/
theorem c5_brief_sentinel_rejected (out : String) :
    generate_meeting_brief (PyResult.ok out)
      = (if pyIn sentinel out then "Meeting brief generation does not require scheduling."
          else out)
    ∧ pyIn sentinel "Meeting brief generation does not require scheduling." = false :=
  ⟨rfl, by decide⟩

/-- C7: `schedule_meeting` authenticates first; when authentication yields an
error string it returns exactly that string with an empty effect log — no
conflict query, no insert, no agent prompt — whatever the date, duration and
other inputs hold. -/
theorem c7_schedule_auth_first (env : ScheduleEnv) (s : String)
    (hauth : env.authOutcome = PyResult.ok (AuthReturn.errMsg s)) :
    schedule_meeting env = (PyResult.ok s, Effects.nil) := by
  simp [schedule_meeting, hauth]

/-- C7 witness: a concrete schedule run aborting on the authentication error
string. -/
theorem c7_schedule_auth_first_witness :
    schedule_meeting schedEnvAuthErr
      = (PyResult.ok "Google Calendar authentication failed. Please ensure credentials.json is valid and pre-authenticate.",
          Effects.nil) :=
  c7_schedule_auth_first schedEnvAuthErr _ rfl

/-- C6: on the successful insert path with a non-blank attendee line, the
attendee list attached to the inserted event is the comma-split input with
each entry trimmed, keeping exactly the entries that are non-empty and
contain an at sign. -/
theorem c6_attendee_filtering (env : ScheduleEnv) (d : Date) (et : AwareDT)
    (hauth : env.authOutcome = PyResult.ok (AuthReturn.ok ServiceHandle.service))
    (hdate : parseDate env.date_str = some d)
    (hadd : (localizeEastern ⟨d, 9, 0, 0⟩).addMinutes env.duration_minutes = PyResult.ok et)
    (hlist : env.listResult = PyResult.ok [])
    (hins : env.insertResult = PyResult.ok ())
    (hnb : pyStrip env.attendeesInput ≠ "") :
    ((schedule_meeting env).2.insertCalls.map TimedEvent.attendees
        = [((pySplit env.attendeesInput ',').map pyStrip).filter attendeeKeep])
    ∧ (∀ e, e ∈ ((pySplit env.attendeesInput ',').map pyStrip).filter attendeeKeep ↔
        (e ∈ (pySplit env.attendeesInput ',').map pyStrip ∧ e ≠ "" ∧ pyIn "@" e = true)) := by
  constructor
  · cases hc : env.confirmResult <;>
      simp [schedule_meeting, hauth, hdate, hadd, hlist, hins, hc,
        attendeeFiltered, attendeeEntries, hnb]
  · intro e
    simp [List.mem_filter, attendeeKeep, Bool.and_eq_true, bne_iff_ne, and_assoc]

/-- C6 witness: the spec's attendee scenario — input "a@x.com, bad, b@y.com"
attaches exactly a@x.com and b@y.com to the created event. -/
theorem c6_attendee_filtering_witness :
    (schedule_meeting schedEnvAtt).2.insertCalls.map TimedEvent.attendees
      = [["a@x.com", "b@y.com"]] := by
  have h := (c6_attendee_filtering schedEnvAtt ⟨2025, 3, 10⟩
    ⟨⟨⟨2025, 3, 10⟩, 9, 30, 0⟩, "America/New_York", -240⟩
    rfl (by decide) (by decide) rfl rfl (by decide)).1
  rw [h]
  decide

/-- C8: choosing menu option 3 and answering the duration prompt with a
string `int()` rejects ends the run as an uncaught exception: `run_demo`
terminates abnormally with the `ValueError` text, never reaching the date
prompt, the handler, or another menu prompt, whatever stdin still holds. -/
theorem c8_bad_duration_uncaught (H : Handlers) (title durLine : String)
    (rest : List String)
    (hbad : pyInt durLine = none) :
    run_demo H ("3" :: title :: durLine :: rest)
      = DemoResult.crashed menuLines (intError durLine) := by
  simp [run_demo, runLoop, hbad]

/-- C8 witness: the crash on the concrete non-integer duration "thirty". -/
theorem c8_bad_duration_uncaught_witness :
    run_demo H0 ["3", "Standup", "thirty", "2025-03-10"]
      = DemoResult.crashed menuLines (intError "thirty") :=
  c8_bad_duration_uncaught H0 "Standup" "thirty" ["2025-03-10"] (by decide)

/-- C9 counterexample: on stdin "x" then "4", the run prints the 4-option
menu exactly once (at startup); after the invalid choice only
"Invalid choice. Please try again." is printed before the next prompt —
refuting the claim that the menu is reprinted. -/
theorem c9_counterexample_menu_not_reprinted :
    run_demo H0 ["x", "4"]
      = DemoResult.exited
          (menuLines ++ ["Invalid choice. Please try again.", "Demo ended. Thank you!"])
    ∧ (menuLines ++ ["Invalid choice. Please try again.", "Demo ended. Thank you!"]).count
        "1. Set a reminder" = 1 := by
  decide

/-- C9 amended: a menu input outside "1", "2", "3", "4" makes the loop print
exactly "Invalid choice. Please try again." and prompt again; the 4-option
menu itself is not reprinted. -/
theorem c9_amended_invalid_choice (H : Handlers) (choice : String)
    (rest out : List String)
    (h1 : choice ≠ "1") (h2 : choice ≠ "2") (h3 : choice ≠ "3") (h4 : choice ≠ "4") :
    runLoop H LoopState.menu (choice :: rest) out
      = runLoop H LoopState.menu rest (out ++ ["Invalid choice. Please try again."]) := by
  simp [runLoop, h1, h2, h3, h4]

/-- C9 witness: the amended behaviour at the concrete invalid choice "x". -/
theorem c9_amended_invalid_choice_witness :
    runLoop H0 LoopState.menu ["x", "4"] menuLines
      = runLoop H0 LoopState.menu ["4"] (menuLines ++ ["Invalid choice. Please try again."]) :=
  c9_amended_invalid_choice H0 "x" ["4"] menuLines
    (by decide) (by decide) (by decide) (by decide)

/-- C10: on the successful insert path the one confirmation prompt sent to
the SchedulingAgent carries the attendee fragment built from all parsed
comma-separated entries whenever the filtered attendee list is non-empty
(so entries filtered out of the event still appear in the prompt), and the
fragment is the word "none" when the filtered list is empty. -/
theorem c10_confirmation_lists_unfiltered (env : ScheduleEnv) (d : Date) (et : AwareDT)
    (hauth : env.authOutcome = PyResult.ok (AuthReturn.ok ServiceHandle.service))
    (hdate : parseDate env.date_str = some d)
    (hadd : (localizeEastern ⟨d, 9, 0, 0⟩).addMinutes env.duration_minutes = PyResult.ok et)
    (hlist : env.listResult = PyResult.ok [])
    (hins : env.insertResult = PyResult.ok ()) :
    (schedule_meeting env).2.agentPrompts
      = [confirmPrompt env.meeting_title env.date_str env.duration_minutes env.attendeesInput]
    ∧ (attendeeFiltered env.attendeesInput ≠ [] →
        attendeesPart env.attendeesInput = joinComma (attendeeEntries env.attendeesInput))
    ∧ (attendeeFiltered env.attendeesInput = [] →
        attendeesPart env.attendeesInput = "none") := by
  refine ⟨?_, fun h => by simp [attendeesPart, h], fun h => by simp [attendeesPart, h]⟩
  cases hc : env.confirmResult <;>
    simp [schedule_meeting, hauth, hdate, hadd, hlist, hins, hc]

/-- C10 witness: with input "a@x.com, bad, b@y.com" the confirmation prompt
lists all three parsed entries, including "bad", which the event's attendee
list dropped. -/
theorem c10_confirmation_lists_unfiltered_witness :
    (schedule_meeting schedEnvAtt).2.agentPrompts
      = ["Confirm a meeting titled 'Sync' scheduled on 2025-03-10 at 9:00 AM EST for 30 minutes with attendees a@x.com, bad, b@y.com."]
    ∧ attendeesPart "a@x.com, bad, b@y.com"
        = joinComma (attendeeEntries "a@x.com, bad, b@y.com") := by
  have h := c10_confirmation_lists_unfiltered schedEnvAtt ⟨2025, 3, 10⟩
    ⟨⟨⟨2025, 3, 10⟩, 9, 30, 0⟩, "America/New_York", -240⟩
    rfl (by decide) (by decide) rfl rfl
  exact ⟨by rw [h.1]; decide, h.2.1 (by decide)⟩

end Assistant
